import Mathlib

/-!
Verification development for the buffer-and-overlay analysis pipeline of
`streamlit_buffer_overlay_app.py`.

Shallow embedding choices:
* a geometry is a finite list of planar points with rational coordinates;
  `intersects` is the boundary-inclusive "share at least one point" test and
  `unary_union` is the (deduplicated) union of all point sets of a layer;
* a layer (GeoDataFrame) is an ordered list of features, each a geometry plus
  an attribute record, together with an optional EPSG code (`crs = none`
  models a source that declares no CRS);
* the external geometry/projection library (pyproj + shapely) is an explicit
  environment `GeoEnv`: which EPSG codes its database recognizes, the
  pointwise coordinate transform between two codes, and the buffer operator.
  `to_crs` fails (raises, modelled as `none`) exactly when the source layer
  has no CRS or a code involved is not recognized;
* Python `int()` truncates toward zero, embedded as `pyInt`.
-/

/-- A planar point with rational coordinates. -/
abbrev GeoPoint : Type := ℚ × ℚ

/-- A geometry: a finite set of points, as a list. -/
abbrev Geometry : Type := List GeoPoint

/-- One feature of a layer: a geometry plus an attribute record. -/
structure Feature where
  geometry : Geometry
  attrs : List (String × String)
deriving DecidableEq

/-- A layer (GeoDataFrame): ordered features plus an optional EPSG code. -/
structure Layer where
  features : List Feature
  crs : Option ℤ
deriving DecidableEq

/-- The external geometry/projection library, as an environment: `ok e` states
that the CRS database recognizes EPSG code `e`, `tr c e` is the pointwise
coordinate transform from CRS `c` to CRS `e`, and `buffer g d` is the buffer
of geometry `g` at distance `d`. -/
structure GeoEnv where
  ok : ℤ → Bool
  tr : ℤ → ℤ → GeoPoint → GeoPoint
  buffer : Geometry → ℚ → Geometry

/-- Python `int()` on a real number: truncation toward zero. -/
def pyInt (q : ℚ) : ℤ := if 0 ≤ q then ⌊q⌋ else ⌈q⌉

/-- The geometries of a layer, in feature order. -/
def gdfGeoms (l : Layer) : List Geometry := l.features.map (fun f => f.geometry)

/-- `gdf.unary_union`: the union of all point sets of the layer's geometries
(shapely dissolves duplicates). -/
def unary_union (l : Layer) : Geometry := (gdfGeoms l).flatten.dedup

/-- `g.centroid` followed by `.x` / `.y`: the mean point of a nonempty
geometry; on an empty geometry shapely's `.x` raises (modelled as `none`). -/
def centroid (g : Geometry) : Option GeoPoint :=
  if g.length = 0 then none
  else some ((g.map (fun p => p.1)).sum / (g.length : ℚ),
             (g.map (fun p => p.2)).sum / (g.length : ℚ))

/-- Apply a pointwise coordinate transform to one feature. -/
def featTr (t : GeoPoint → GeoPoint) (f : Feature) : Feature :=
  { geometry := f.geometry.map t, attrs := f.attrs }

/-- `gdf.to_crs(epsg=e)`: fails when the layer has no CRS or a code is not in
the database; otherwise transforms every coordinate and tags the result. -/
def to_crs (env : GeoEnv) (l : Layer) (e : ℤ) : Option Layer :=
  match l.crs with
  | none => none
  | some c =>
    if env.ok c && env.ok e then
      some { features := l.features.map (featTr (env.tr c e)), crs := some e }
    else none

/-- `gdf.set_crs(epsg=e, inplace=True)`: tags the CRS, leaves coordinates. -/
def set_crs (l : Layer) (e : ℤ) : Layer := { l with crs := some e }

/-- Lines 50-54 of `read_vector_upload`: a layer with no declared CRS is
tagged as EPSG:32643, any other layer is reprojected to EPSG:32643. -/
def normalize_to_working (env : GeoEnv) (gdf : Layer) : Option Layer :=
  match gdf.crs with
  | none => some (set_crs gdf 32643)
  | some _ => to_crs env gdf 32643

/-- Line 71 of `ensure_utm`: `utm_zone = int((lon + 180) / 6) + 1`. -/
def utm_zone_of (lon : ℚ) : ℤ := pyInt ((lon + 180) / 6) + 1

/-- Line 72 of `ensure_utm`:
`epsg = 32600 + utm_zone if lat >= 0 else 32700 + utm_zone`. -/
def choose_epsg (lon lat : ℚ) : ℤ :=
  if 0 ≤ lat then 32600 + utm_zone_of lon else 32700 + utm_zone_of lon

/-- `ensure_utm(gdf)`: takes the centroid of the union, reads its raw `x`/`y`
coordinates as `lon`/`lat`, derives the candidate EPSG code, tries to
reproject to it, and on failure reprojects to EPSG:3857 instead. `none`
models an exception escaping the function. -/
def ensure_utm (env : GeoEnv) (gdf : Layer) : Option (Layer × ℤ) :=
  match centroid (unary_union gdf) with
  | none => none
  | some c =>
    let epsg := choose_epsg c.1 c.2
    match to_crs env gdf epsg with
    | some gdf_m => some (gdf_m, epsg)
    | none =>
      match to_crs env gdf 3857 with
      | some gdf_m => some (gdf_m, 3857)
      | none => none

/-- `make_buffer(roads_gdf, distance_m)`: metric frame via `ensure_utm`,
dissolve by union, buffer the dissolved geometry, wrap as a single-feature
layer in the metric CRS, reproject back to EPSG:32643. -/
def make_buffer (env : GeoEnv) (roads : Layer) (d : ℚ) : Option Layer :=
  match ensure_utm env roads with
  | none => none
  | some (roads_m, _epsg) =>
    let dissolved := unary_union roads_m
    let buf_gdf : Layer := { features := [{ geometry := env.buffer dissolved d, attrs := [] }], crs := roads_m.crs }
    to_crs env buf_gdf 32643

/-- `a.intersects(b)`: the two geometries share at least one point. -/
def intersectsB (a b : Geometry) : Bool := a.any (fun p => decide (p ∈ b))

/-- `parcels_gdf[mask]`: boolean-mask row selection over the feature list. -/
def maskFilter : List Feature → List Bool → List Feature
  | [], _ => []
  | _ :: _, [] => []
  | f :: fs, b :: bs => if b then f :: maskFilter fs bs else maskFilter fs bs

/-- `count_intersecting_parcels(parcels_gdf, buffer_gdf)`: the boolean series
`parcels_gdf.geometry.intersects(buffer_gdf.unary_union)`, its sum, and the
masked sub-layer. -/
def count_intersecting_parcels (parcels buffer_gdf : Layer) : ℕ × Layer :=
  let u := unary_union buffer_gdf
  let mask := parcels.features.map (fun f => intersectsB f.geometry u)
  (mask.count true, { features := maskFilter parcels.features mask, crs := parcels.crs })

/-- Python `s.endswith(suf)`, on the character sequences of the strings. -/
def ends_with (s suf : String) : Bool := suf.data.isSuffixOf s.data

/-- Line 31 of `read_vector_upload`: the `.shp` entries of the extracted
archive listing. -/
def shp_files (names : List String) : List String :=
  names.filter (fun f => ends_with f ".shp")

/-- Lines 31-35 of `read_vector_upload`: fail when the archive holds no
geometry file, otherwise read the first located `.shp` file. -/
def locate_shp (names : List String) : Except String String :=
  match shp_files names with
  | [] => Except.error "No .shp file found in uploaded ZIP."
  | f :: _ => Except.ok f

/-- A concrete environment standing for the real CRS database: the UTM codes
32601-32660 and 32701-32760, the web projection 3857 and geographic 4326,
with the identity transform and identity buffer (their values are irrelevant
to the EPSG bookkeeping facts proved with it). -/
def envStd : GeoEnv where
  ok := fun e => decide ((32601 ≤ e ∧ e ≤ 32660) ∨ (32701 ≤ e ∧ e ≤ 32760) ∨ e = 3857 ∨ e = 4326)
  tr := fun _ _ p => p
  buffer := fun g _ => g

/-- A roads layer in the working CRS EPSG:32643 whose single point is the
easting/northing of a location near Bengaluru (about longitude 77.59,
latitude 12.91). -/
def L0 : Layer :=
  { features := [{ geometry := [((677000 : ℚ), (1427000 : ℚ))], attrs := [] }], crs := some 32643 }

/-- `L0` after the fallback reprojection to EPSG:3857 under `envStd`. -/
def L0fall : Layer :=
  { features := [{ geometry := [((677000 : ℚ), (1427000 : ℚ))], attrs := [] }], crs := some 3857 }

/-- A layer whose single point has coordinates (77.5, 12.9). -/
def LBLR : Layer :=
  { features := [{ geometry := [((77.5 : ℚ), (12.9 : ℚ))], attrs := [] }], crs := some 4326 }

/-- The empty layer in the working CRS. -/
def Lempty : Layer := { features := [], crs := some 32643 }

/-- A layer with no declared CRS. -/
def Lnone : Layer :=
  { features := [{ geometry := [((10 : ℚ), (20 : ℚ))], attrs := [("name", "a")] }], crs := none }

/-- A layer in the working CRS whose single point has a negative `y`
coordinate (the code reads it as a southern-hemisphere latitude). -/
def Lsouth : Layer :=
  { features := [{ geometry := [((500000 : ℚ), (-3000000 : ℚ))], attrs := [] }], crs := some 32643 }

/-- `Lsouth` after the fallback reprojection to EPSG:3857 under `envStd`. -/
def LsouthFall : Layer :=
  { features := [{ geometry := [((500000 : ℚ), (-3000000 : ℚ))], attrs := [] }], crs := some 3857 }

/-- The Bengaluru-coordinate layer `LBLR` reprojected (by the identity
transform of `envStd`) into EPSG:32643. -/
def LBLRm : Layer :=
  { features := [{ geometry := [((77.5 : ℚ), (12.9 : ℚ))], attrs := [] }], crs := some 32643 }

/-! ### Helper lemmas -/

theorem intersectsB_iff (a b : Geometry) :
    intersectsB a b = true ↔ ∃ p, p ∈ a ∧ p ∈ b := by
  simp [intersectsB, List.any_eq_true]

theorem maskFilter_map (p : Feature → Bool) (fs : List Feature) :
    maskFilter fs (fs.map p) = fs.filter p := by
  induction fs with
  | nil => rfl
  | cons f fs ih =>
    by_cases h : p f <;> simp [maskFilter, List.filter_cons, h, ih]

theorem count_true_map (p : Feature → Bool) (fs : List Feature) :
    (fs.map p).count true = fs.countP p := by
  induction fs with
  | nil => rfl
  | cons f fs ih =>
    by_cases h : p f <;> simp [List.count_cons, List.countP_cons, h, ih]

theorem to_crs_some (env : GeoEnv) (l : Layer) (e : ℤ) (l' : Layer)
    (h : to_crs env l e = some l') :
    l'.crs = some e ∧ env.ok e = true
      ∧ ∃ c0, l.crs = some c0 ∧ env.ok c0 = true
          ∧ l'.features = l.features.map (featTr (env.tr c0 e)) := by
  unfold to_crs at h
  split at h
  · exact absurd h (by simp)
  · rename_i c0 hc
    split at h
    · rename_i hok
      obtain ⟨h1, h2⟩ := Bool.and_eq_true_iff.mp hok
      cases h
      exact ⟨rfl, h2, c0, hc, h1, rfl⟩
    · exact absurd h (by simp)

theorem ensure_utm_crs_ok (env : GeoEnv) (gdf m : Layer) (e : ℤ)
    (h : ensure_utm env gdf = some (m, e)) :
    m.crs = some e ∧ env.ok e = true := by
  unfold ensure_utm at h
  split at h
  · exact absurd h (by simp)
  · rename_i c hcent
    simp only at h
    split at h
    · rename_i m1 h1
      obtain ⟨hm, he⟩ : m1 = m ∧ choose_epsg c.1 c.2 = e := by
        cases h; exact ⟨rfl, rfl⟩
      obtain ⟨hc1, hok1, -⟩ := to_crs_some env gdf _ m1 h1
      exact ⟨by rw [← hm, hc1, he], by rw [← he]; exact hok1⟩
    · rename_i h1
      split at h
      · rename_i m2 h2
        obtain ⟨hm, he⟩ : m2 = m ∧ (3857 : ℤ) = e := by
          cases h; exact ⟨rfl, rfl⟩
        obtain ⟨hc2, hok2, -⟩ := to_crs_some env gdf _ m2 h2
        exact ⟨by rw [← hm, hc2, he], by rw [← he]; exact hok2⟩
      · exact absurd h (by simp)

theorem to_crs_congr (env : GeoEnv) (r1 r2 : Layer) (e : ℤ)
    (hg : gdfGeoms r1 = gdfGeoms r2) (hc : r1.crs = r2.crs) :
    (to_crs env r1 e = none ∧ to_crs env r2 e = none) ∨
    ∃ m1 m2, to_crs env r1 e = some m1 ∧ to_crs env r2 e = some m2
      ∧ gdfGeoms m1 = gdfGeoms m2 ∧ m1.crs = m2.crs := by
  unfold to_crs
  rw [hc]
  cases h2 : r2.crs with
  | none => left; exact ⟨rfl, rfl⟩
  | some c0 =>
    by_cases hok : (env.ok c0 && env.ok e) = true
    · right
      refine ⟨{ features := r1.features.map (featTr (env.tr c0 e)), crs := some e },
              { features := r2.features.map (featTr (env.tr c0 e)), crs := some e },
              by simp [hok], by simp [hok], ?_, rfl⟩
      have := congrArg (List.map (List.map (env.tr c0 e))) hg
      simpa [gdfGeoms, featTr, List.map_map, Function.comp] using this
    · left
      simp [hok]

theorem ensure_utm_congr (env : GeoEnv) (r1 r2 : Layer)
    (hg : gdfGeoms r1 = gdfGeoms r2) (hc : r1.crs = r2.crs) :
    (ensure_utm env r1 = none ∧ ensure_utm env r2 = none) ∨
    ∃ m1 m2 e, ensure_utm env r1 = some (m1, e) ∧ ensure_utm env r2 = some (m2, e)
      ∧ gdfGeoms m1 = gdfGeoms m2 ∧ m1.crs = m2.crs := by
  have hu : unary_union r1 = unary_union r2 := by unfold unary_union; rw [hg]
  unfold ensure_utm
  rw [hu]
  cases hcent : centroid (unary_union r2) with
  | none => left; exact ⟨rfl, rfl⟩
  | some c =>
    simp only
    rcases to_crs_congr env r1 r2 (choose_epsg c.1 c.2) hg hc with ⟨hn1, hn2⟩ | ⟨m1, m2, hs1, hs2, hmg, hmc⟩
    · rw [hn1, hn2]
      rcases to_crs_congr env r1 r2 3857 hg hc with ⟨kn1, kn2⟩ | ⟨k1, k2, ks1, ks2, kmg, kmc⟩
      · left; rw [kn1, kn2]; exact ⟨rfl, rfl⟩
      · right; rw [ks1, ks2]; exact ⟨k1, k2, 3857, rfl, rfl, kmg, kmc⟩
    · right; rw [hs1, hs2]
      exact ⟨m1, m2, choose_epsg c.1 c.2, rfl, rfl, hmg, hmc⟩

/-! ### Claim theorems -/

/-- Claim C4: for every parcel layer and buffer layer,
`count_intersecting_parcels` returns the number of parcel features whose
geometry shares at least one point with the dissolved buffer geometry,
together with exactly the sub-list of those features in their original order
with their attributes (a filter of the feature list), keeping the layer CRS;
the tested predicate is the boundary-inclusive shares-a-point test. -/
theorem count_intersecting_parcels_correct (parcels buf : Layer) :
    (count_intersecting_parcels parcels buf).1
      = parcels.features.countP (fun f => intersectsB f.geometry (unary_union buf))
    ∧ (count_intersecting_parcels parcels buf).2.features
      = parcels.features.filter (fun f => intersectsB f.geometry (unary_union buf))
    ∧ (∀ f : Feature, intersectsB f.geometry (unary_union buf) = true
        ↔ ∃ p, p ∈ f.geometry ∧ p ∈ unary_union buf)
    ∧ (count_intersecting_parcels parcels buf).2.crs = parcels.crs := by
  refine ⟨?_, ?_, fun f => intersectsB_iff f.geometry (unary_union buf), rfl⟩
  · simp [count_intersecting_parcels, count_true_map]
  · simp [count_intersecting_parcels, maskFilter_map]

/-- Claim C10: the count returned by `count_intersecting_parcels` always
equals the number of features of the returned sub-layer, and that sub-layer
is a sublist of the input parcel layer's features (same rows, same order). -/
theorem count_intersecting_parcels_consistent (parcels buf : Layer) :
    (count_intersecting_parcels parcels buf).1
      = (count_intersecting_parcels parcels buf).2.features.length
    ∧ List.Sublist (count_intersecting_parcels parcels buf).2.features parcels.features
    ∧ (count_intersecting_parcels parcels buf).2.crs = parcels.crs := by
  refine ⟨?_, ?_, rfl⟩
  · simp [count_intersecting_parcels, count_true_map, maskFilter_map,
      List.countP_eq_length_filter]
  · simp only [count_intersecting_parcels, maskFilter_map]
    exact List.filter_sublist parcels.features

/-- Claim C8: `count_intersecting_parcels` is a total function, and it
returns count 0 when the parcel layer is empty (then also an empty
sub-layer) as well as when the dissolved buffer geometry is empty. -/
theorem count_intersecting_parcels_empty (parcels buf : Layer)
    (h : parcels.features = [] ∨ unary_union buf = []) :
    (count_intersecting_parcels parcels buf).1 = 0
    ∧ (parcels.features = [] → (count_intersecting_parcels parcels buf).2.features = []) := by
  constructor
  · rcases h with h | h
    · simp [count_intersecting_parcels, h]
    · simp [count_intersecting_parcels, count_true_map, h, intersectsB]
  · intro hp
    simp [count_intersecting_parcels, hp, maskFilter]

/-- Witness for C8: the empty parcel layer against the concrete buffer layer
`L0` yields count 0 and an empty sub-layer. -/
theorem count_intersecting_parcels_empty_witness :
    (count_intersecting_parcels Lempty L0).1 = 0
    ∧ (count_intersecting_parcels Lempty L0).2.features = [] :=
  ⟨(count_intersecting_parcels_empty Lempty L0 (Or.inl rfl)).1,
   (count_intersecting_parcels_empty Lempty L0 (Or.inl rfl)).2 rfl⟩

/-- Claim C7: on an archive listing, the loader fails with the
no-geometry-found error exactly when the listing holds no `.shp` entry (and
then returns no layer to read), and otherwise locates one geometry file: the
first `.shp` entry of the listing, which is a `.shp` member of the archive. -/
theorem locate_shp_correct (names : List String) :
    (locate_shp names = Except.error "No .shp file found in uploaded ZIP."
      ↔ ∀ f ∈ names, ends_with f ".shp" = false)
    ∧ (∀ f rest, shp_files names = f :: rest →
        locate_shp names = Except.ok f ∧ f ∈ names ∧ ends_with f ".shp" = true) := by
  constructor
  · constructor
    · intro h
      intro f hf
      cases hs : shp_files names with
      | nil =>
        have := List.filter_eq_nil_iff.mp hs f hf
        simpa using this
      | cons g rest => simp [locate_shp, hs] at h
    · intro h
      have hs : shp_files names = [] := by
        apply List.filter_eq_nil_iff.mpr
        intro f hf
        simp [h f hf]
      simp [locate_shp, hs]
  · intro f rest hs
    have hf : f ∈ shp_files names := by rw [hs]; exact List.mem_cons_self f rest
    have := List.mem_filter.mp hf
    exact ⟨by simp [locate_shp, hs], this.1, this.2⟩

/-- Witness for C7: an archive listing with a `.shp` entry locates that entry;
a listing with only sidecar files fails with the no-geometry-found error. -/
theorem locate_shp_witness :
    locate_shp ["parcels.shp", "parcels.dbf"] = Except.ok "parcels.shp"
    ∧ locate_shp ["parcels.dbf", "parcels.prj"]
        = Except.error "No .shp file found in uploaded ZIP." :=
  ⟨((locate_shp_correct ["parcels.shp", "parcels.dbf"]).2 "parcels.shp" []
      (by decide)).1,
   (locate_shp_correct ["parcels.dbf", "parcels.prj"]).1.mpr (by decide)⟩

/-- Claim C3: whenever the reprojection into the computed candidate UTM EPSG
code fails, `ensure_utm` does not propagate the failure: it returns the layer
reprojected to EPSG:3857 together with the code 3857. -/
theorem ensure_utm_fallback_3857 (env : GeoEnv) (gdf : Layer) (c : GeoPoint)
    (hcent : centroid (unary_union gdf) = some c)
    (hfail : to_crs env gdf (choose_epsg c.1 c.2) = none)
    (g3 : Layer) (hok : to_crs env gdf 3857 = some g3) :
    ensure_utm env gdf = some (g3, 3857) := by
  simp [ensure_utm, hcent, hfail, hok]

/-- Witness for C3: for the southern working-CRS layer `Lsouth` under
`envStd`, the candidate code 32700 + 83364 = 116064 is rejected by the CRS
database and `ensure_utm` returns the EPSG:3857 fallback. -/
theorem ensure_utm_fallback_3857_witness :
    ensure_utm envStd Lsouth = some (LsouthFall, 3857) :=
  ensure_utm_fallback_3857 envStd Lsouth ((500000 : ℚ), (-3000000 : ℚ))
    (by norm_num [centroid, unary_union, gdfGeoms, Lsouth])
    (by norm_num [to_crs, Lsouth, envStd, choose_epsg, utm_zone_of, pyInt])
    LsouthFall
    (by norm_num [to_crs, Lsouth, LsouthFall, envStd, featTr])

/-- Claim C5: a loaded layer that declares no CRS is tagged as already being
in the working CRS EPSG:32643 with its coordinates untouched, and never
fails; a loaded layer that declares a CRS recognized by the projection
library is reprojected to exactly EPSG:32643. -/
theorem normalize_to_working_correct (env : GeoEnv) (gdf : Layer) :
    (gdf.crs = none →
      normalize_to_working env gdf = some { features := gdf.features, crs := some 32643 })
    ∧ (∀ c, gdf.crs = some c → env.ok c = true → env.ok 32643 = true →
        normalize_to_working env gdf
          = some { features := gdf.features.map (featTr (env.tr c 32643)), crs := some 32643 }) := by
  constructor
  · intro h
    simp [normalize_to_working, h, set_crs]
  · intro c h hc h643
    simp [normalize_to_working, h, to_crs, hc, h643]

/-- Witness for C5: the CRS-less layer `Lnone` is tagged as EPSG:32643 with
its feature untouched; the EPSG:4326 layer `LBLR` is reprojected to
EPSG:32643 under `envStd`. -/
theorem normalize_to_working_witness :
    normalize_to_working envStd Lnone = some { features := Lnone.features, crs := some 32643 }
    ∧ normalize_to_working envStd LBLR
        = some { features := LBLR.features.map (featTr (envStd.tr 4326 32643)), crs := some 32643 } :=
  ⟨(normalize_to_working_correct envStd Lnone).1 rfl,
   (normalize_to_working_correct envStd LBLR).2 4326 rfl (by decide) (by decide)⟩

/-- Claim C6: whenever the UTM projection step succeeds (with metric layer
`m` and code `e`) and the working CRS is available, `make_buffer` returns the
single-feature layer whose only geometry is the buffer, at the given
distance, of the dissolved union of the metric-frame line geometries,
reprojected back to the working CRS EPSG:32643. -/
theorem make_buffer_correct (env : GeoEnv) (roads : Layer) (d : ℚ) (m : Layer) (e : ℤ)
    (hm : ensure_utm env roads = some (m, e)) (h643 : env.ok 32643 = true) :
    make_buffer env roads d
      = some { features := [{ geometry := (env.buffer (unary_union m) d).map (env.tr e 32643),
                              attrs := [] }],
               crs := some 32643 } := by
  obtain ⟨hcrs, hoke⟩ := ensure_utm_crs_ok env roads m e hm
  simp [make_buffer, hm, to_crs, hcrs, hoke, h643, featTr]

/-- Witness for C6: `make_buffer` on the concrete layer `L0` at distance 50
under `envStd` (where the metric frame is the EPSG:3857 fallback `L0fall`). -/
theorem make_buffer_correct_witness :
    make_buffer envStd L0 50
      = some { features := [{ geometry := (envStd.buffer (unary_union L0fall) 50).map (envStd.tr 3857 32643),
                              attrs := [] }],
               crs := some 32643 } :=
  make_buffer_correct envStd L0 50 L0fall 3857
    (by norm_num [ensure_utm, centroid, unary_union, gdfGeoms, L0, L0fall,
      choose_epsg, utm_zone_of, pyInt, to_crs, envStd, featTr])
    (by decide)

/-- Claim C9: the buffer builder is deterministic in the input geometry: two
road layers with identical geometry lists and the same CRS produce identical
`make_buffer` output at every distance, whatever their attribute records. -/
theorem make_buffer_deterministic (env : GeoEnv) (r1 r2 : Layer) (d : ℚ)
    (hg : gdfGeoms r1 = gdfGeoms r2) (hc : r1.crs = r2.crs) :
    make_buffer env r1 d = make_buffer env r2 d := by
  rcases ensure_utm_congr env r1 r2 hg hc with ⟨h1, h2⟩ | ⟨m1, m2, e, h1, h2, hmg, hmc⟩
  · simp [make_buffer, h1, h2]
  · have hum : unary_union m1 = unary_union m2 := by unfold unary_union; rw [hmg]
    simp only [make_buffer, h1, h2]
    rw [hum, hmc]

/-- Witness for C9: two single-feature road layers with the same geometry but
different attribute records produce the same buffer under `envStd`. -/
theorem make_buffer_deterministic_witness :
    make_buffer envStd L0 100
      = make_buffer envStd
          { features := [{ geometry := [((677000 : ℚ), (1427000 : ℚ))],
                           attrs := [("road", "nh44")] }], crs := some 32643 } 100 :=
  make_buffer_deterministic envStd L0
    { features := [{ geometry := [((677000 : ℚ), (1427000 : ℚ))],
                     attrs := [("road", "nh44")] }], crs := some 32643 } 100
    (by rfl) (by rfl)

/-- Claim C1 (evaluation at the failing input): `ensure_utm` never converts
the centroid to longitude/latitude. For the working-CRS (EPSG:32643) layer
`L0`, whose centroid easting/northing is (677000, 1427000) — about longitude
77.59, latitude 12.91, whose true UTM code is 32643 — the code feeds the raw
metric coordinates to the zone formula, obtaining candidate EPSG
32600 + int((677000+180)/6) + 1 = 145464, a code no CRS database recognizes,
so the function falls back to EPSG:3857 instead of any UTM code. -/
theorem ensure_utm_skips_lonlat_conversion :
    centroid (unary_union L0) = some ((677000 : ℚ), (1427000 : ℚ))
    ∧ choose_epsg 677000 1427000 = 145464
    ∧ envStd.ok 145464 = false
    ∧ ensure_utm envStd L0 = some (L0fall, 3857)
    ∧ (145464 : ℤ) ≠ 32643 := by
  refine ⟨?_, ?_, by decide, ?_, by decide⟩
  · norm_num [centroid, unary_union, gdfGeoms, L0]
  · norm_num [choose_epsg, utm_zone_of, pyInt]
  · norm_num [ensure_utm, centroid, unary_union, gdfGeoms, L0, L0fall,
      choose_epsg, utm_zone_of, pyInt, to_crs, envStd, featTr]

/-- Counterexample for C2: for the layer `LBLR`, whose union's centroid has
coordinates (77.5, 12.9), the zone the code computes is not 42 and the
selected EPSG code is not 32642: int((77.5+180)/6)+1 = 42+1 = 43. -/
theorem bengaluru_zone_not_42 :
    centroid (unary_union LBLR) = some ((77.5 : ℚ), (12.9 : ℚ))
    ∧ utm_zone_of (77.5 : ℚ) ≠ 42
    ∧ choose_epsg (77.5 : ℚ) (12.9 : ℚ) ≠ 32642 := by
  refine ⟨?_, ?_, ?_⟩
  · norm_num [centroid, unary_union, gdfGeoms, LBLR]
  · norm_num [utm_zone_of, pyInt]
  · norm_num [choose_epsg, utm_zone_of, pyInt]

/-- Claim C2 as amended: a union centroid with coordinates (77.5, 12.9)
selects zone int((77.5+180)/6)+1 = 43 and, since 12.9 >= 0, the
northern-hemisphere code 32600 + 43 = 32643; `ensure_utm` then reprojects
`LBLR` into EPSG:32643 and returns that code. -/
theorem bengaluru_zone_43 :
    centroid (unary_union LBLR) = some ((77.5 : ℚ), (12.9 : ℚ))
    ∧ utm_zone_of (77.5 : ℚ) = 43
    ∧ choose_epsg (77.5 : ℚ) (12.9 : ℚ) = 32643
    ∧ ensure_utm envStd LBLR = some (LBLRm, 32643) := by
  refine ⟨?_, ?_, ?_, ?_⟩
  · norm_num [centroid, unary_union, gdfGeoms, LBLR]
  · norm_num [utm_zone_of, pyInt]
  · norm_num [choose_epsg, utm_zone_of, pyInt]
  · norm_num [ensure_utm, centroid, unary_union, gdfGeoms, LBLR, LBLRm,
      choose_epsg, utm_zone_of, pyInt, to_crs, envStd, featTr]
